import Mathlib

/-!
Shallow embedding of the PCM audio provider of `src/audio_provider_pcm.cpp`:
the RIFF WAV and Sony Wave64 container parsers, the windowed memory mapper
`EnsureRangeAccessible`, the sample reader `FillBuffer`, and the provider
factory `CreatePCMAudioProvider`.

A file is a list of bytes (`List Nat`).  Machine integers are modelled as
`Nat` with explicit reduction modulo `2 ^ 32` (`uint32_t`) or `2 ^ 64`
(`uint64_t`) exactly where the C++ source performs wrapping unsigned
arithmetic.  C++ exceptions become `Except` values.  C++ integer division by
zero is undefined behaviour and is surfaced as the distinct outcome
`PCMError.divByZero` rather than silently mapped to Lean's `n / 0 = 0`.
-/

set_option maxRecDepth 100000

namespace PCM

/-- A byte of the file at index `i`.  All reads performed by the embedded
code are preceded by a successful `EnsureRangeAccessible` bounds check, so
the default value for an out-of-range index is never observable. -/
def byteAt (f : List Nat) (i : Nat) : Nat := f.getD i 0

/-- Little-endian 16-bit read, as the overlaid `uint16_t` struct fields. -/
def readU16 (f : List Nat) (i : Nat) : Nat := byteAt f i + 256 * byteAt f (i + 1)

/-- Little-endian 32-bit read, as the overlaid `uint32_t` struct fields. -/
def readU32 (f : List Nat) (i : Nat) : Nat := readU16 f i + 65536 * readU16 f (i + 2)

/-- Little-endian 64-bit read, as the overlaid `uint64_t` struct fields. -/
def readU64 (f : List Nat) (i : Nat) : Nat :=
  readU32 f i + 4294967296 * readU32 f (i + 4)

/-- The bytes of the file at offsets `[off, off + n)`. -/
def bytesAt (f : List Nat) (off n : Nat) : List Nat := (f.drop off).take n

/-- `CheckFourcc`: compare the four bytes at `off` with a four-byte magic. -/
def checkFourcc (f : List Nat) (off : Nat) (magic : List Nat) : Bool :=
  bytesAt f off 4 == magic

/-- `CheckGuid`: `memcmp` of the sixteen bytes at `off` with a GUID. -/
def checkGuid (f : List Nat) (off : Nat) (guid : List Nat) : Bool :=
  bytesAt f off 16 == guid

/-- `2 ^ 32`, the modulus of `uint32_t` arithmetic. -/
def u32Mod : Nat := 4294967296

/-- `2 ^ 64`, the modulus of `uint64_t` arithmetic. -/
def u64Mod : Nat := 18446744073709551616

/-- Wrapping `uint32_t` subtraction `a - b`: the value of the C
expression, `(a + (2^32 - b)) mod 2^32`, written without the huge-literal
complement addend. -/
def u32sub (a b : Nat) : Nat :=
  if b % u32Mod ≤ a % u32Mod then a % u32Mod - b % u32Mod
  else a % u32Mod + (u32Mod - b % u32Mod)

/-- Wrapping `uint64_t` subtraction `a - b`: the value of the C
expression, `(a + (2^64 - b)) mod 2^64`, written without the huge-literal
complement addend. -/
def u64sub (a b : Nat) : Nat :=
  if b % u64Mod ≤ a % u64Mod then a % u64Mod - b % u64Mod
  else a % u64Mod + (u64Mod - b % u64Mod)

/-- The exceptions the embedded code can throw.  `dataNotFound` is
`agi::AudioDataNotFoundError` (soft, wrong container), `openError` is
`agi::AudioProviderOpenError` (hard, invalid content), `decodeError` is
`AudioDecodeError` thrown by `EnsureRangeAccessible`.  `divByZero` marks the
undefined behaviour of a C++ integer division by zero, and `outOfFuel`
marks a chunk-walk execution exceeding the given iteration bound. -/
inductive PCMError where
  | dataNotFound (msg : String)
  | openError (msg : String)
  | decodeError (msg : String)
  | divByZero
  | outOfFuel
deriving DecidableEq

/-- `IndexPoint`: one contiguous run of sample frames inside the file. -/
structure IndexPoint where
  start_sample : Nat
  num_samples : Nat
  start_byte : Nat
deriving DecidableEq

/-- The provider fields set by a successful parse (the immutable part of
`PCMAudioProvider` after construction). -/
structure Provider where
  sample_rate : Nat
  channels : Nat
  bytes_per_sample : Nat
  num_samples : Nat
  index_points : List IndexPoint
deriving DecidableEq

/-- The mutable window of `PCMAudioProvider`: `mapping_start` plus the live
mapped region, `none` when no region exists yet.  The region's address is
modelled by identifying a returned pointer with the file offset it reads. -/
structure MapState where
  mapping_start : Nat
  region_size : Option Nat
deriving DecidableEq

/-- The message of the bounds-check throw in `EnsureRangeAccessible`. -/
def mapBeyondMsg : String := "Attempted to map beyond end of file"

/-- The remap arm of `EnsureRangeAccessible`.  On 32-bit (`sizeof(size_t)
== 4`) the window start is aligned down to 1 MiB (`start & ~0xFFFFF`,
written as division for a nonnegative value) and the length is at least
16 MiB, rounded up to the next MiB, but bounded by the remaining file; on
64-bit the whole file is mapped.  The OS-level mapping failure
(`interprocess_exception`) is environmental and not modelled. -/
def remapWindow (is32 : Bool) (file_size start length : Nat) : MapState :=
  if is32 then
    let ms := start / 1048576 * 1048576
    let len1 := length + (start - ms)
    let len2 := min (max 16777216 ((len1 + 1048575) / 1048576 * 1048576)) (file_size - ms)
    { mapping_start := ms, region_size := some len2 }
  else
    { mapping_start := 0, region_size := some file_size }

/-- `PCMAudioProvider::EnsureRangeAccessible`: fail past end of file, reuse
a covering window, otherwise remap.  The returned pointer is modelled as
the file offset `start` it gives access to. -/
def ensureRangeAccessible (is32 : Bool) (file_size : Nat) (st : MapState)
    (start length : Nat) : Except PCMError (Nat × MapState) :=
  if file_size < start + length then .error (.decodeError mapBeyondMsg)
  else
    match st.region_size with
    | some sz =>
      if st.mapping_start ≤ start ∧ start + length ≤ st.mapping_start + sz then
        .ok (start, st)
      else .ok (start, remapWindow is32 file_size start length)
    | none => .ok (start, remapWindow is32 file_size start length)

/-- The window state only decides which branch builds the returned pointer,
never the bytes it designates (`ensureRangeAccessible_ok_iff` below), so the
parsers and the reader are written against this stateless bounds check. -/
def ensureRange (file_size start length : Nat) : Except PCMError Unit :=
  if file_size < start + length then .error (.decodeError mapBeyondMsg) else .ok ()

/-- C++ integer division: division by zero is undefined behaviour. -/
def cppDiv (a b : Nat) : Option Nat := if b = 0 then none else some (a / b)

/-- The state of either chunk-walk loop: the two cursor counters, the
format-chunk flag, and the provider fields filled in so far.  The C++
source leaves `sample_rate`, `channels` and `bytes_per_sample`
uninitialized until a format chunk is seen; they are modelled as 0. -/
structure ParseState where
  data_left : Nat
  filepos : Nat
  got_fmt_header : Bool
  sample_rate : Nat
  channels : Nat
  bytes_per_sample : Nat
  num_samples : Nat
  index_points : List IndexPoint
deriving DecidableEq

/-- The loop state right after a header check: counters set, nothing else. -/
def initState (dl fp : Nat) : ParseState :=
  { data_left := dl, filepos := fp, got_fmt_header := false, sample_rate := 0,
    channels := 0, bytes_per_sample := 0, num_samples := 0, index_points := [] }

/-- The provider a successful parse constructs from the final loop state. -/
def mkProvider (s : ParseState) : Provider :=
  { sample_rate := s.sample_rate, channels := s.channels,
    bytes_per_sample := s.bytes_per_sample, num_samples := s.num_samples,
    index_points := s.index_points }

/-- `sizeof(RIFFChunk)`: 4-byte type, `uint32_t` size, 4-byte format tag. -/
def riffHeaderSize : Nat := 12

/-- `sizeof(ChunkHeader)`: 4-byte type plus `uint32_t` size. -/
def chunkHeaderSize : Nat := 8

/-- `sizeof(fmtChunk)`: two `uint16_t`, two `uint32_t`, two `uint16_t`. -/
def fmtChunkSize : Nat := 16

/-- "RIFF" -/
def fccRIFF : List Nat := [82, 73, 70, 70]

/-- "WAVE" -/
def fccWAVE : List Nat := [87, 65, 86, 69]

/-- "fmt " -/
def fccFmt : List Nat := [102, 109, 116, 32]

/-- "data" -/
def fccData : List Nat := [100, 97, 116, 97]

/-- Padded RIFF chunk size: `(ch.size + 1) & ~1` in `uint32_t` arithmetic
(round up to 2-byte alignment; the increment itself can wrap). -/
def riffPad (sz : Nat) : Nat := (sz + 1) % u32Mod / 2 * 2

/-- The trailing counter update of one RIFF chunk walk iteration:
`data_left -= (ch.size + 1) & ~1; filepos += (ch.size + 1) & ~1;` in
`uint32_t` arithmetic. -/
def riffAdvance (sz : Nat) (t : ParseState) : ParseState :=
  { t with data_left := u32sub t.data_left (riffPad sz),
           filepos := (t.filepos + riffPad sz) % u32Mod }

/-- The leading counter update of one RIFF chunk walk iteration:
`data_left -= sizeof(ch); filepos += sizeof(ch);` in `uint32_t`
arithmetic. -/
def riffPastHeader (s : ParseState) : ParseState :=
  { s with data_left := u32sub s.data_left chunkHeaderSize,
           filepos := (s.filepos + chunkHeaderSize) % u32Mod }

/-- The provider fields the RIFF "fmt " handler assigns, reading the
`fmtChunk` overlaid at the already-advanced `filepos`: sample rate,
channels, and bits per sample rounded up to whole bytes. -/
def riffFmtUpdate (file : List Nat) (s1 : ParseState) : ParseState :=
  { s1 with got_fmt_header := true,
            sample_rate := readU32 file (s1.filepos + 4),
            channels := readU16 file (s1.filepos + 2),
            bytes_per_sample := (readU16 file (s1.filepos + 14) + 7) / 8 }

/-- The shared data-chunk handler tail: append an `IndexPoint` carrying
the running `num_samples` total, the computed frame count and the given
start byte, then advance the running total. -/
def pushIndexPoint (frames start_byte : Nat) (s : ParseState) : ParseState :=
  { s with
    index_points := s.index_points ++
      [{ start_sample := s.num_samples, num_samples := frames,
         start_byte := start_byte }],
    num_samples := s.num_samples + frames }

/-- One iteration of the RIFF WAV chunk walk (the body of `while
(data_left)` in `RiffWavPCMAudioProvider::RiffWavPCMAudioProvider`): map
the 8-byte chunk header at `filepos`, advance both counters past it, handle
a format or data chunk, then advance both counters by the padded chunk
size.  All counter arithmetic is `uint32_t`. -/
def riffStep (file : List Nat) (s : ParseState) : Except PCMError ParseState :=
  match ensureRange file.length s.filepos chunkHeaderSize with
  | .error e => .error e
  | .ok _ =>
    let sz := readU32 file (s.filepos + 4)
    let s1 := riffPastHeader s
    if checkFourcc file s.filepos fccFmt then
      if s1.got_fmt_header then
        .error (.openError "Invalid file, multiple \'fmt \' chunks")
      else
        match ensureRange file.length s1.filepos fmtChunkSize with
        | .error e => .error e
        | .ok _ =>
          if readU16 file s1.filepos ≠ 1 then
            .error (.openError "Can\'t use file, not PCM encoding")
          else
            .ok (riffAdvance sz (riffFmtUpdate file s1))
    else if checkFourcc file s.filepos fccData then
      if s1.got_fmt_header then
        match cppDiv sz s1.bytes_per_sample with
        | none => .error .divByZero
        | some samples =>
          match cppDiv samples s1.channels with
          | none => .error .divByZero
          | some frames =>
            .ok (riffAdvance sz (pushIndexPoint frames s1.filepos s1))
      else
        .error (.openError "Found \'data\' chunk before \'fmt \' chunk, file is invalid.")
    else .ok (riffAdvance sz s1)

/-- The RIFF WAV chunk walk.  The C++ loop carries no bound of its own;
`fuel` bounds the modelled iteration count and `outOfFuel` marks an
execution that exceeds every bound (the loop can in fact run forever). -/
def riffLoop (file : List Nat) : Nat → ParseState → Except PCMError ParseState
  | 0, s => if s.data_left = 0 then .ok s else .error .outOfFuel
  | fuel + 1, s =>
    if s.data_left = 0 then .ok s
    else
      match riffStep file s with
      | .error e => .error e
      | .ok t => riffLoop file fuel t

/-- The pre-loop part of the RIFF WAV constructor: map the 12-byte top
header, check the "RIFF" and "WAVE" magics, compute `data_left =
header.ch.size - 4` (`uint32_t`) and start the walk at offset 12. -/
def riffHeaderCheck (file : List Nat) : Except PCMError ParseState :=
  match ensureRange file.length 0 riffHeaderSize with
  | .error e => .error e
  | .ok _ =>
    if ¬ checkFourcc file 0 fccRIFF then
      .error (.dataNotFound "File is not a RIFF file")
    else if ¬ checkFourcc file 8 fccWAVE then
      .error (.dataNotFound "File is not a RIFF WAV file")
    else .ok (initState (u32sub (readU32 file 4) 4) riffHeaderSize)

/-- `RiffWavPCMAudioProvider::RiffWavPCMAudioProvider` as a whole. -/
def parseRiffWav (fuel : Nat) (file : List Nat) : Except PCMError Provider :=
  match riffHeaderCheck file with
  | .error e => .error e
  | .ok s0 =>
    match riffLoop file fuel s0 with
    | .error e => .error e
    | .ok s => .ok (mkProvider s)

/-- `w64GuidRIFF` -/
def w64GuidRIFF : List Nat :=
  [114, 105, 102, 102, 46, 145, 207, 17, 165, 214, 40, 219, 4, 193, 0, 0]

/-- `w64GuidWAVE` -/
def w64GuidWAVE : List Nat :=
  [119, 97, 118, 101, 243, 172, 211, 17, 140, 209, 0, 192, 79, 142, 219, 138]

/-- `w64Guidfmt` -/
def w64Guidfmt : List Nat :=
  [102, 109, 116, 32, 243, 172, 211, 17, 140, 209, 0, 192, 79, 142, 219, 138]

/-- `w64Guiddata` -/
def w64Guiddata : List Nat :=
  [100, 97, 116, 97, 243, 172, 211, 17, 140, 209, 0, 192, 79, 142, 219, 138]

/-- `sizeof(RiffChunk)` for Wave64: two GUIDs around a `uint64_t` size. -/
def w64RiffChunkSize : Nat := 40

/-- `sizeof(FormatChunk)`: GUID (16) + `uint64_t` size (8) + `WaveFormatEx`
(18 bytes of fields, padded to 20 by C++ alignment) + `padding[6]`, the
whole struct rounded up to 8-byte alignment: 56. -/
def w64FormatChunkSize : Nat := 56

/-- `sizeof(DataChunk)`: GUID (16) + `uint64_t` size (8). -/
def w64DataChunkSize : Nat := 24

/-- `smallest_possible_file` in `Wave64AudioProvider`. -/
def smallestPossibleW64 : Nat := w64RiffChunkSize + w64FormatChunkSize + w64DataChunkSize

/-- Padded Wave64 chunk size: `(chunk_size + 7) & ~7` in `uint64_t`
arithmetic (round up to 8-byte alignment; the increment itself can wrap).
The declared `chunk_size` of a Wave64 chunk includes its 24-byte header. -/
def w64Pad (sz : Nat) : Nat := (sz + 7) % u64Mod / 8 * 8

/-- The trailing counter update of one Wave64 chunk walk iteration:
`data_left -= (chunk_size + 7) & ~7; filepos += (chunk_size + 7) & ~7;` in
`uint64_t` arithmetic. -/
def w64Advance (sz : Nat) (t : ParseState) : ParseState :=
  { t with data_left := u64sub t.data_left (w64Pad sz),
           filepos := (t.filepos + w64Pad sz) % u64Mod }

/-- The provider fields the Wave64 format-chunk handler assigns, reading
the `WaveFormatEx` overlaid 24 bytes into the chunk: sample rate,
channels, and bits per sample rounded up to whole bytes. -/
def w64FmtUpdate (file : List Nat) (s : ParseState) : ParseState :=
  { s with got_fmt_header := true,
           sample_rate := readU32 file (s.filepos + 28),
           channels := readU16 file (s.filepos + 26),
           bytes_per_sample := (readU16 file (s.filepos + 38) + 7) / 8 }

/-- One iteration of the Wave64 chunk walk (the body of `while (data_left)`
in `Wave64AudioProvider::Wave64AudioProvider`): map the 16-byte GUID at
`filepos` and the `uint64_t` size at `filepos + 16`, handle a format or
data chunk, then advance both counters by the padded chunk size (the
counters are not advanced past the header first; the declared `chunk_size`
includes the header).  All counter arithmetic is `uint64_t`. -/
def w64Step (file : List Nat) (s : ParseState) : Except PCMError ParseState :=
  match ensureRange file.length s.filepos 16 with
  | .error e => .error e
  | .ok _ =>
  match ensureRange file.length (s.filepos + 16) 8 with
  | .error e => .error e
  | .ok _ =>
    let chunk_size := readU64 file (s.filepos + 16)
    if checkGuid file s.filepos w64Guidfmt then
      if s.got_fmt_header then
        .error (.openError "Bad file, found more than one \'fmt\' chunk")
      else
        match ensureRange file.length s.filepos w64FormatChunkSize with
        | .error e => .error e
        | .ok _ =>
          if readU16 file (s.filepos + 24) = 3 then
            .error (.openError "File is IEEE 32 bit float format which isn\'t supported. Bug the developers if this matters.")
          else if readU16 file (s.filepos + 24) ≠ 1 then
            .error (.openError "Can\'t use file, not PCM encoding")
          else
            .ok (w64Advance chunk_size (w64FmtUpdate file s))
    else if checkGuid file s.filepos w64Guiddata then
      if s.got_fmt_header then
        match cppDiv chunk_size s.bytes_per_sample with
        | none => .error .divByZero
        | some samples =>
          match cppDiv samples s.channels with
          | none => .error .divByZero
          | some frames =>
            .ok (w64Advance chunk_size (pushIndexPoint frames s.filepos s))
      else
        .error (.openError "Found \'data\' chunk before \'fmt \' chunk, file is invalid.")
    else .ok (w64Advance chunk_size s)

/-- The Wave64 chunk walk, fuelled like `riffLoop`. -/
def w64Loop (file : List Nat) : Nat → ParseState → Except PCMError ParseState
  | 0, s => if s.data_left = 0 then .ok s else .error .outOfFuel
  | fuel + 1, s =>
    if s.data_left = 0 then .ok s
    else
      match w64Step file s with
      | .error e => .error e
      | .ok t => w64Loop file fuel t

/-- The pre-loop part of the Wave64 constructor: reject a file shorter than
`smallest_possible_file` before reading any byte, then map the 40-byte top
header, check both GUIDs, compute `data_left = header.file_size -
sizeof(RiffChunk)` (`uint64_t`) and start the walk at offset 40. -/
def w64HeaderCheck (file : List Nat) : Except PCMError ParseState :=
  if file.length < smallestPossibleW64 then
    .error (.dataNotFound "File is too small to be a Wave64 file")
  else
    match ensureRange file.length 0 w64RiffChunkSize with
    | .error e => .error e
    | .ok _ =>
      if ¬ checkGuid file 0 w64GuidRIFF then
        .error (.dataNotFound "File is not a Wave64 RIFF file")
      else if ¬ checkGuid file 24 w64GuidWAVE then
        .error (.dataNotFound "File is not a Wave64 WAVE file")
      else
        .ok (initState (u64sub (readU64 file 16) w64RiffChunkSize) w64RiffChunkSize)

/-- `Wave64AudioProvider::Wave64AudioProvider` as a whole. -/
def parseWave64 (fuel : Nat) (file : List Nat) : Except PCMError Provider :=
  match w64HeaderCheck file with
  | .error e => .error e
  | .ok s0 =>
    match w64Loop file fuel s0 with
    | .error e => .error e
    | .ok s => .ok (mkProvider s)

/-- The loop of `PCMAudioProvider::FillBuffer`: walk the index points in
order; an index point containing `start` contributes `samples_can_do =
min (ip.num_samples - start + ip.start_sample) count` frames read at byte
offset `ip.start_byte + (start - ip.start_sample) * bytes_per_sample *
channels`, then both cursors advance.  The result is the byte list the
`memcpy` calls write into the caller's buffer, in order. -/
def fillBufferAux (file : List Nat) (bps ch : Nat) :
    List IndexPoint → Nat → Nat → Except PCMError (List Nat)
  | [], _, _ => .ok []
  | ip :: rest, start, count =>
    if count = 0 then .ok []
    else if ip.start_sample ≤ start ∧ start < ip.start_sample + ip.num_samples then
      let scd := min (ip.start_sample + ip.num_samples - start) count
      let src := ip.start_byte + (start - ip.start_sample) * bps * ch
      match ensureRange file.length src (scd * bps * ch) with
      | .error e => .error e
      | .ok _ =>
        match fillBufferAux file bps ch rest (start + scd) (count - scd) with
        | .error e => .error e
        | .ok tail => .ok (bytesAt file src (scd * bps * ch) ++ tail)
    else fillBufferAux file bps ch rest start count

/-- `PCMAudioProvider::FillBuffer` for a constructed provider. -/
def fillBuffer (file : List Nat) (p : Provider) (start count : Nat) :
    Except PCMError (List Nat) :=
  fillBufferAux file p.bytes_per_sample p.channels p.index_points start count

/-- The per-parser message tag of `CreatePCMAudioProvider`. -/
def riffMsgTag : String := "RIFF PCM WAV audio provider: "

/-- The per-parser message tag of the Wave64 attempt, with the joining
newline of `msg += "\nWave64 audio provider: "`. -/
def w64MsgTag : String := "\nWave64 audio provider: "

/-- The second half of `CreatePCMAudioProvider`: try the Wave64 parser
given the flag and message accumulated from the RIFF attempt; only the
two listed exception kinds are caught. -/
def createSecond (fuel : Nat) (file : List Nat) (wrong_file_type : Bool)
    (msg : String) : Except PCMError Provider :=
  match parseWave64 fuel file with
  | .ok p => .ok p
  | .error (.dataNotFound m2) =>
    if wrong_file_type then .error (.dataNotFound (msg ++ w64MsgTag ++ m2))
    else .error (.openError (msg ++ w64MsgTag ++ m2))
  | .error (.openError m2) => .error (.openError (msg ++ w64MsgTag ++ m2))
  | .error e => .error e

/-- `CreatePCMAudioProvider`: try the RIFF WAV parser, catching
`agi::AudioDataNotFoundError` (keeping `wrong_file_type`) and
`agi::AudioProviderOpenError` (clearing it); then the Wave64 parser
likewise; any other exception propagates. -/
def createPCMAudioProvider (fuel : Nat) (file : List Nat) :
    Except PCMError Provider :=
  match parseRiffWav fuel file with
  | .ok p => .ok p
  | .error (.dataNotFound m1) => createSecond fuel file true (riffMsgTag ++ m1)
  | .error (.openError m1) => createSecond fuel file false (riffMsgTag ++ m1)
  | .error e => .error e

/-- The two parsers the factory knows, in its fixed order. -/
inductive ParserName where
  | riffWav
  | wave64
deriving DecidableEq

/-- `CreatePCMAudioProvider` instrumented with the list of parser
constructors it invokes, in order; the result component is the factory's. -/
def createPCMAudioProviderTrace (fuel : Nat) (file : List Nat) :
    Except PCMError Provider × List ParserName :=
  match parseRiffWav fuel file with
  | .ok p => (.ok p, [ParserName.riffWav])
  | .error (.dataNotFound m1) =>
    (createSecond fuel file true (riffMsgTag ++ m1),
     [ParserName.riffWav, ParserName.wave64])
  | .error (.openError m1) =>
    (createSecond fuel file false (riffMsgTag ++ m1),
     [ParserName.riffWav, ParserName.wave64])
  | .error e => (.error e, [ParserName.riffWav])

/-- Sum of the frame counts of a list of index points. -/
def sumNum : List IndexPoint → Nat
  | [] => 0
  | ip :: l => ip.num_samples + sumNum l

/-- The index list is gapless starting from running total `n`: each point
starts exactly where the previous one ended. -/
def gapless : List IndexPoint → Nat → Bool
  | [], _ => true
  | ip :: l, n => ip.start_sample == n && gapless l (n + ip.num_samples)

/-- Whether a factory outcome is the unrecognized-container error. -/
def isDataNotFound : Except PCMError Provider → Bool
  | .error (.dataNotFound _) => true
  | _ => false

/-- Little-endian bytes of a 16-bit value, for building concrete files. -/
def u16Bytes (n : Nat) : List Nat := [n % 256, n / 256 % 256]

/-- Little-endian bytes of a 32-bit value, for building concrete files. -/
def u32Bytes (n : Nat) : List Nat :=
  [n % 256, n / 256 % 256, n / 65536 % 256, n / 16777216 % 256]

/-- Little-endian bytes of a 64-bit value, for building concrete files. -/
def u64Bytes (n : Nat) : List Nat :=
  u32Bytes (n % 4294967296) ++ u32Bytes (n / 4294967296)



/-- The 16 payload bytes (4 stereo 16-bit frames) of `c1File`'s data chunk. -/
def c1Payload : List Nat :=
  [10, 11, 12, 13, 20, 21, 22, 23, 30, 31, 32, 33, 40, 41, 42, 43]

/-- A RIFF WAV file declaring 16-bit PCM, 2 channels, sample rate 44100,
with one 4-frame data chunk: "RIFF", size 52, "WAVE", a "fmt " chunk
(compression 1, 2 channels, 44100 Hz, 176400 B/s, block align 4, 16 bits),
and a "data" chunk with `c1Payload`.  60 bytes; payload starts at 44. -/
def c1File : List Nat :=
  fccRIFF ++ u32Bytes 52 ++ fccWAVE ++
  fccFmt ++ u32Bytes 16 ++
    u16Bytes 1 ++ u16Bytes 2 ++ u32Bytes 44100 ++ u32Bytes 176400 ++
    u16Bytes 4 ++ u16Bytes 16 ++
  fccData ++ u32Bytes 16 ++ c1Payload

/-- The provider the RIFF WAV parser constructs from `c1File`. -/
def c1Provider : Provider :=
  { sample_rate := 44100, channels := 2, bytes_per_sample := 2,
    num_samples := 4,
    index_points := [{ start_sample := 0, num_samples := 4, start_byte := 44 }] }

/-- A Wave64 file declaring 16-bit PCM, 2 channels, 44100 Hz: 40-byte top
header (declared file size 136), a format chunk of declared size 56, and a
data chunk of declared size 40 (24-byte header + 16 payload bytes).  The
data chunk header starts at offset 96, its payload at offset 120. -/
def c3File : List Nat :=
  w64GuidRIFF ++ u64Bytes 136 ++ w64GuidWAVE ++
  w64Guidfmt ++ u64Bytes 56 ++
    u16Bytes 1 ++ u16Bytes 2 ++ u32Bytes 44100 ++ u32Bytes 176400 ++
    u16Bytes 4 ++ u16Bytes 16 ++ u16Bytes 0 ++ List.replicate 14 0 ++
  w64Guiddata ++ u64Bytes 40 ++
    [10, 11, 12, 13, 20, 21, 22, 23, 30, 31, 32, 33, 40, 41, 42, 43]

/-- The provider the Wave64 parser actually constructs from `c3File`. -/
def c3Provider : Provider :=
  { sample_rate := 44100, channels := 2, bytes_per_sample := 2,
    num_samples := 10,
    index_points := [{ start_sample := 0, num_samples := 10, start_byte := 96 }] }

/-- 130 bytes of "X": long enough for both top headers, matching neither
container's magic. -/
def c4JunkFile : List Nat := List.replicate 130 88

/-- A RIFF WAV whose format chunk declares compression 2 (not PCM): the
RIFF parser hard-fails after its magic matched. -/
def c5File : List Nat :=
  fccRIFF ++ u32Bytes 28 ++ fccWAVE ++
  fccFmt ++ u32Bytes 16 ++
    u16Bytes 2 ++ u16Bytes 1 ++ u32Bytes 44100 ++ u32Bytes 88200 ++
    u16Bytes 2 ++ u16Bytes 16

/-- A RIFF WAV whose format chunk declares 0 significant bits per sample,
making `bytes_per_sample = (0 + 7) / 8 = 0`, followed by a data chunk. -/
def c7File : List Nat :=
  fccRIFF ++ u32Bytes 40 ++ fccWAVE ++
  fccFmt ++ u32Bytes 16 ++
    u16Bytes 1 ++ u16Bytes 2 ++ u32Bytes 44100 ++ u32Bytes 176400 ++
    u16Bytes 4 ++ u16Bytes 0 ++
  fccData ++ u32Bytes 4 ++ [1, 2, 3, 4]

/-- A Wave64 file whose format chunk declares 0 channels, followed by a
data chunk. -/
def c7w64File : List Nat :=
  w64GuidRIFF ++ u64Bytes 136 ++ w64GuidWAVE ++
  w64Guidfmt ++ u64Bytes 56 ++
    u16Bytes 1 ++ u16Bytes 0 ++ u32Bytes 44100 ++ u32Bytes 176400 ++
    u16Bytes 4 ++ u16Bytes 16 ++ u16Bytes 0 ++ List.replicate 14 0 ++
  w64Guiddata ++ u64Bytes 40 ++
    [10, 11, 12, 13, 20, 21, 22, 23, 30, 31, 32, 33, 40, 41, 42, 43]

/-- 20 bytes: "RIFF", size 12, "WAVE", then a chunk of type "JUNK" with
declared size `0xFFFFFFF8`.  Its padded size plus the 8-byte header is
`0x100000000 ≡ 0 (mod 2^32)`, so one loop iteration leaves `data_left = 8`
and `filepos = 12` unchanged. -/
def c8File : List Nat :=
  fccRIFF ++ u32Bytes 12 ++ fccWAVE ++ [74, 85, 78, 75] ++ u32Bytes 4294967288

/-- 120 bytes: a valid Wave64 top header declaring file size 120, then a
chunk with an unrecognized (all-zero) GUID and declared size 0, whose
padded size 0 leaves `data_left = 80` and `filepos = 40` unchanged. -/
def c8w64File : List Nat :=
  w64GuidRIFF ++ u64Bytes 120 ++ w64GuidWAVE ++ List.replicate 80 0

/-- 100 bytes beginning with both correct Wave64 GUIDs, shorter than
`smallest_possible_file`. -/
def c10File : List Nat :=
  w64GuidRIFF ++ u64Bytes 200 ++ w64GuidWAVE ++ List.replicate 60 0

/-- C1: a RIFF WAV file declaring 16-bit PCM, 2 channels, sample rate
44100, with one 4-frame data chunk parses to a provider with
`bytes_per_sample = 2`, `channels = 2`, `sample_rate = 44100`,
`num_samples = 4`, and `FillBuffer` for the frame range `[1, 3)` copies
exactly bytes `[4, 12)` of the data chunk payload, i.e. reads start at
byte `start_byte + (1 - 0) * bytes_per_sample * channels = 44 + 4`. -/
theorem c1_riff_parse_and_fill :
    parseRiffWav 100 c1File = .ok c1Provider ∧
    c1Provider.bytes_per_sample = 2 ∧ c1Provider.channels = 2 ∧
    c1Provider.sample_rate = 44100 ∧ c1Provider.num_samples = 4 ∧
    fillBuffer c1File c1Provider 1 2 = .ok (bytesAt c1Payload 4 8) ∧
    bytesAt c1Payload 4 8 = [20, 21, 22, 23, 30, 31, 32, 33] :=
  ⟨rfl, rfl, rfl, rfl, rfl, rfl, rfl⟩

/-- C6: `EnsureRangeAccessible(start, length)` throws the decode error
whenever `start + length` exceeds the file size, and when the current
window already covers `[start, start + length)` it returns the pointer to
offset `start` with the window state untouched (no new mapping). -/
theorem c6_ensure_range_bounds_and_reuse (is32 : Bool) (fs : Nat)
    (st : MapState) (start len sz : Nat) :
    (fs < start + len →
      ensureRangeAccessible is32 fs st start len = .error (.decodeError mapBeyondMsg)) ∧
    (start + len ≤ fs → st.region_size = some sz → st.mapping_start ≤ start →
      start + len ≤ st.mapping_start + sz →
      ensureRangeAccessible is32 fs st start len = .ok (start, st)) := by
  constructor
  · intro h
    unfold ensureRangeAccessible
    rw [if_pos h]
  · intro h1 h2 h3 h4
    unfold ensureRangeAccessible
    rw [if_neg (by omega), h2]
    exact if_pos ⟨h3, h4⟩

/-- C6 witness: a request past a 4-byte file fails; a request inside a
window `[0, 50)` of a 100-byte file returns offset 10 and the same state. -/
theorem c6_ensure_range_bounds_and_reuse_witness :
    ensureRangeAccessible false 4 ⟨0, some 4⟩ 3 2 = .error (.decodeError mapBeyondMsg) ∧
    ensureRangeAccessible false 100 ⟨0, some 50⟩ 10 5 = .ok (10, ⟨0, some 50⟩) :=
  ⟨(c6_ensure_range_bounds_and_reuse false 4 ⟨0, some 4⟩ 3 2 4).1 (by decide),
   (c6_ensure_range_bounds_and_reuse false 100 ⟨0, some 50⟩ 10 5 50).2
     (by decide) rfl (by decide) (by decide)⟩

/-- C7 (code bug): neither parser validates `channels` or
`bytes_per_sample` non-zero before dividing.  On `c7File` the RIFF parser
reaches `ch.size / bytes_per_sample` with `bytes_per_sample = 0`, and on
`c7w64File` the Wave64 parser reaches `samples / channels` with
`channels = 0`: an integer division by zero (undefined behaviour in the
source), not the invalid-format rejection the claim describes. -/
theorem c7_no_zero_divisor_validation :
    parseRiffWav 100 c7File = .error .divByZero ∧
    parseWave64 100 c7w64File = .error .divByZero :=
  ⟨rfl, rfl⟩

/-- C10: a file shorter than `smallest_possible_file` (120 bytes: Wave64
top header, format chunk, data chunk header) is rejected by the Wave64
parser with the soft wrong-container error before it examines any file
byte, so such a file can never produce the hard invalid-content error. -/
theorem c10_w64_small_file_soft_fail (fuel : Nat) (file : List Nat)
    (h : file.length < smallestPossibleW64) :
    parseWave64 fuel file =
      .error (.dataNotFound "File is too small to be a Wave64 file") := by
  unfold parseWave64 w64HeaderCheck
  rw [if_pos h]

/-- C10 witness: `c10File` begins with both correct Wave64 GUIDs, yet its
100 bytes soft-fail the size check. -/
theorem c10_w64_small_file_soft_fail_witness :
    c10File.length < smallestPossibleW64 ∧
    parseWave64 7 c10File =
      .error (.dataNotFound "File is too small to be a Wave64 file") :=
  ⟨by decide, c10_w64_small_file_soft_fail 7 c10File (by decide)⟩

/-- If one iteration returns the loop state unchanged while `data_left ≠
0`, the RIFF chunk walk never terminates: it exhausts every fuel bound. -/
theorem riffLoop_stuck (file : List Nat) (s : ParseState)
    (hstep : riffStep file s = .ok s) (hdl : s.data_left ≠ 0) :
    ∀ fuel, riffLoop file fuel s = .error .outOfFuel := by
  intro fuel
  induction fuel with
  | zero => simp [riffLoop, hdl]
  | succ n ih => simp [riffLoop, hdl, hstep, ih]

/-- If one iteration returns the loop state unchanged while `data_left ≠
0`, the Wave64 chunk walk never terminates: it exhausts every fuel bound. -/
theorem w64Loop_stuck (file : List Nat) (s : ParseState)
    (hstep : w64Step file s = .ok s) (hdl : s.data_left ≠ 0) :
    ∀ fuel, w64Loop file fuel s = .error .outOfFuel := by
  intro fuel
  induction fuel with
  | zero => simp [w64Loop, hdl]
  | succ n ih => simp [w64Loop, hdl, hstep, ih]

/-- C8 (code bug): the chunk-walk loops do not terminate on every input.
One RIFF iteration on `c8File` returns its state unchanged (`uint32_t`
wrap-around: the 8-byte header plus the padded declared chunk size is
`2^32 ≡ 0`), and one Wave64 iteration on `c8w64File` returns its state
unchanged (padded declared size 0), so on these files both constructors
loop forever — modelled as exhausting every fuel bound — instead of
stopping or raising an error. -/
theorem c8_chunk_walk_nontermination :
    riffStep c8File (initState 8 12) = .ok (initState 8 12) ∧
    w64Step c8w64File (initState 80 40) = .ok (initState 80 40) ∧
    (∀ fuel, parseRiffWav fuel c8File = .error .outOfFuel) ∧
    (∀ fuel, parseWave64 fuel c8w64File = .error .outOfFuel) := by
  refine ⟨rfl, rfl, fun fuel => ?_, fun fuel => ?_⟩
  · have h0 : riffHeaderCheck c8File = .ok (initState 8 12) := rfl
    have h := riffLoop_stuck c8File (initState 8 12) rfl (by decide) fuel
    simp [parseRiffWav, h0, h]
  · have h0 : w64HeaderCheck c8w64File = .ok (initState 80 40) := rfl
    have h := w64Loop_stuck c8w64File (initState 80 40) rfl (by decide) fuel
    simp [parseWave64, h0, h]

/-- C3 counterexample: on `c3File`'s data chunk (header at offset 96,
16 payload bytes at offset 120) the Wave64 parser records `start_byte =
96` — the chunk header offset, not the payload start — and `num_samples =
40 / 2 / 2 = 10`, counting the 24 header bytes as sample data; the claim
requires `start_byte = 120` and `16 / 2 / 2 = 4` frames. -/
theorem c3_w64_start_byte_counterexample :
    parseWave64 100 c3File = .ok c3Provider ∧
    c3Provider.index_points =
      [{ start_sample := 0, num_samples := 10, start_byte := 96 }] ∧
    c3Provider.index_points ≠
      [{ start_sample := 0, num_samples := 4, start_byte := 120 }] :=
  ⟨rfl, rfl, by decide⟩

/-- C3 amended: on a RIFF WAV "data" chunk the appended index point has
`start_byte` the payload start (chunk header offset plus 8) and a frame
count computed from the declared payload size, `ch.size /
bytes_per_sample / channels`; on a Wave64 data chunk the appended point's
`start_byte` is the offset of the chunk header (GUID) itself — not the
payload start — and its frame count is computed from the declared
`chunk_size`, which includes the 24-byte chunk header. -/
theorem c3_amended_start_byte_and_frames (file : List Nat) (s : ParseState) :
    (checkFourcc file s.filepos fccData = true → s.got_fmt_header = true →
     s.filepos + chunkHeaderSize ≤ file.length →
     s.bytes_per_sample ≠ 0 → s.channels ≠ 0 →
     ∃ t, riffStep file s = .ok t ∧
       t.index_points = s.index_points ++
         [{ start_sample := s.num_samples,
            num_samples := readU32 file (s.filepos + 4) / s.bytes_per_sample / s.channels,
            start_byte := (s.filepos + chunkHeaderSize) % u32Mod }]) ∧
    (checkGuid file s.filepos w64Guiddata = true → s.got_fmt_header = true →
     s.filepos + 24 ≤ file.length →
     s.bytes_per_sample ≠ 0 → s.channels ≠ 0 →
     ∃ t, w64Step file s = .ok t ∧
       t.index_points = s.index_points ++
         [{ start_sample := s.num_samples,
            num_samples := readU64 file (s.filepos + 16) / s.bytes_per_sample / s.channels,
            start_byte := s.filepos }]) := by
  constructor
  · intro hdata hfmt hlen hbps hch
    have hbytes : bytesAt file s.filepos 4 = fccData := by
      simpa [checkFourcc] using hdata
    have hnfmt : checkFourcc file s.filepos fccFmt = false := by
      simp [checkFourcc, hbytes, fccData, fccFmt]
    have hens : ensureRange file.length s.filepos chunkHeaderSize = .ok () := by
      unfold ensureRange
      rw [if_neg (by omega)]
    unfold riffStep
    rw [hens]
    simp only [riffPastHeader, hnfmt, hdata, hfmt, Bool.false_eq_true, if_false,
      if_true, cppDiv, hbps, hch, ite_false, ite_true]
    exact ⟨_, rfl, rfl⟩
  · intro hdata hfmt hlen hbps hch
    have hbytes : bytesAt file s.filepos 16 = w64Guiddata := by
      simpa [checkGuid] using hdata
    have hnfmt : checkGuid file s.filepos w64Guidfmt = false := by
      simp [checkGuid, hbytes, w64Guiddata, w64Guidfmt]
    have hens1 : ensureRange file.length s.filepos 16 = .ok () := by
      unfold ensureRange
      rw [if_neg (by omega)]
    have hens2 : ensureRange file.length (s.filepos + 16) 8 = .ok () := by
      unfold ensureRange
      rw [if_neg (by omega)]
    unfold w64Step
    rw [hens1, hens2]
    simp only [hnfmt, hdata, hfmt, Bool.false_eq_true, if_false, if_true, cppDiv,
      hbps, hch, ite_false, ite_true]
    exact ⟨_, rfl, rfl⟩

/-- The loop state just before the RIFF parser handles `c1File`'s data
chunk header at offset 36. -/
def c3RiffState : ParseState :=
  { data_left := 24, filepos := 36, got_fmt_header := true,
    sample_rate := 44100, channels := 2, bytes_per_sample := 2,
    num_samples := 0, index_points := [] }

/-- The loop state just before the Wave64 parser handles `c3File`'s data
chunk header at offset 96. -/
def c3W64State : ParseState :=
  { data_left := 40, filepos := 96, got_fmt_header := true,
    sample_rate := 44100, channels := 2, bytes_per_sample := 2,
    num_samples := 0, index_points := [] }

/-- C3 amended witness: concrete data-chunk steps of both parsers — the
RIFF point starts at the payload (44), the Wave64 point at the chunk
header (96) with the header bytes counted in its 10 frames. -/
theorem c3_amended_start_byte_and_frames_witness :
    (∃ t, riffStep c1File c3RiffState = .ok t ∧
      t.index_points = [{ start_sample := 0, num_samples := 4, start_byte := 44 }]) ∧
    (∃ t, w64Step c3File c3W64State = .ok t ∧
      t.index_points = [{ start_sample := 0, num_samples := 10, start_byte := 96 }]) := by
  constructor
  · obtain ⟨t, h1, h2⟩ := (c3_amended_start_byte_and_frames c1File c3RiffState).1
      (by decide) rfl (by decide) (by decide) (by decide)
    exact ⟨t, h1, by rw [h2]; rfl⟩
  · obtain ⟨t, h1, h2⟩ := (c3_amended_start_byte_and_frames c3File c3W64State).2
      (by decide) rfl (by decide) (by decide) (by decide)
    exact ⟨t, h1, by rw [h2]; rfl⟩


/-- The instrumented factory computes the same result as the factory. -/
theorem createPCMAudioProviderTrace_fst (fuel : Nat) (file : List Nat) :
    (createPCMAudioProviderTrace fuel file).1 = createPCMAudioProvider fuel file := by
  unfold createPCMAudioProviderTrace createPCMAudioProvider
  cases h : parseRiffWav fuel file with
  | ok p => rfl
  | error e => cases e <;> rfl

/-- C4 counterexample: on the empty file the RIFF parser's first header
mapping throws the decode error, which the factory does not catch: no
parser signature matched, yet the factory raises neither aggregate error
(in particular not the unrecognized-container error) and never invokes
the Wave64 parser at all. -/
theorem c4_uncaught_decode_error_counterexample :
    createPCMAudioProvider 100 [] = .error (.decodeError mapBeyondMsg) ∧
    isDataNotFound (createPCMAudioProvider 100 []) = false ∧
    (createPCMAudioProviderTrace 100 []).2 = [ParserName.riffWav] :=
  ⟨rfl, rfl, rfl⟩

/-- C4 amended: the factory tries the RIFF WAV parser then the Wave64
parser, returning the first successfully constructed provider and
catching only the wrong-container and invalid-content errors; when both
parsers fail with caught errors it raises the unrecognized-container
error if both failures were wrong-container and the invalid-content error
otherwise, concatenating both per-parser diagnostics; but a decode/access
error thrown by a parser (e.g. mapping the 12-byte RIFF header of a
shorter file) propagates immediately and uncaught, skipping the remaining
parser and the aggregation. -/
theorem c4_amended_factory (fuel : Nat) (file : List Nat) :
    (∀ p, parseRiffWav fuel file = .ok p →
      createPCMAudioProvider fuel file = .ok p) ∧
    (∀ m1 p, (parseRiffWav fuel file = .error (.dataNotFound m1) ∨
        parseRiffWav fuel file = .error (.openError m1)) →
      parseWave64 fuel file = .ok p →
      createPCMAudioProvider fuel file = .ok p) ∧
    (∀ m1 m2, parseRiffWav fuel file = .error (.dataNotFound m1) →
      parseWave64 fuel file = .error (.dataNotFound m2) →
      createPCMAudioProvider fuel file =
        .error (.dataNotFound ((riffMsgTag ++ m1) ++ (w64MsgTag ++ m2)))) ∧
    (∀ m1 m2, parseRiffWav fuel file = .error (.dataNotFound m1) →
      parseWave64 fuel file = .error (.openError m2) →
      createPCMAudioProvider fuel file =
        .error (.openError ((riffMsgTag ++ m1) ++ (w64MsgTag ++ m2)))) ∧
    (∀ m1 m2, parseRiffWav fuel file = .error (.openError m1) →
      (parseWave64 fuel file = .error (.dataNotFound m2) ∨
        parseWave64 fuel file = .error (.openError m2)) →
      createPCMAudioProvider fuel file =
        .error (.openError ((riffMsgTag ++ m1) ++ (w64MsgTag ++ m2)))) ∧
    (∀ m1, parseRiffWav fuel file = .error (.decodeError m1) →
      createPCMAudioProvider fuel file = .error (.decodeError m1) ∧
      (createPCMAudioProviderTrace fuel file).2 = [ParserName.riffWav]) := by
  refine ⟨?_, ?_, ?_, ?_, ?_, ?_⟩
  · intro p h
    simp [createPCMAudioProvider, h]
  · intro m1 p h1 h2
    rcases h1 with h1 | h1 <;>
      simp [createPCMAudioProvider, createSecond, h1, h2]
  · intro m1 m2 h1 h2
    simp [createPCMAudioProvider, createSecond, h1, h2, String.append_assoc]
  · intro m1 m2 h1 h2
    simp [createPCMAudioProvider, createSecond, h1, h2, String.append_assoc]
  · intro m1 m2 h1 h2
    rcases h2 with h2 | h2 <;>
      simp [createPCMAudioProvider, createSecond, h1, h2, String.append_assoc]
  · intro m1 h1
    constructor
    · simp [createPCMAudioProvider, h1]
    · simp [createPCMAudioProviderTrace, h1]

/-- C4 amended witness: both parsers soft-fail the 130-byte junk file and
the factory raises the unrecognized-container error carrying both
diagnostics. -/
theorem c4_amended_factory_witness :
    createPCMAudioProvider 9 c4JunkFile =
      .error (.dataNotFound ((riffMsgTag ++ "File is not a RIFF file") ++
        (w64MsgTag ++ "File is not a Wave64 RIFF file"))) :=
  (c4_amended_factory 9 c4JunkFile).2.2.1 "File is not a RIFF file"
    "File is not a Wave64 RIFF file" rfl rfl

/-- C5 counterexample: `c5File`'s RIFF magic matches but its format chunk
declares a non-PCM compression, a hard invalid-format failure — yet the
factory still invokes the Wave64 parser afterwards, as the instrumented
trace records. -/
theorem c5_hard_failure_still_tries_wave64 :
    parseRiffWav 100 c5File = .error (.openError "Can\'t use file, not PCM encoding") ∧
    (createPCMAudioProviderTrace 100 c5File).2 =
      [ParserName.riffWav, ParserName.wave64] :=
  ⟨rfl, rfl⟩

/-- C5 amended: a hard (invalid-format) parser failure does not stop the
factory from trying the remaining parser — after a hard RIFF failure the
Wave64 parser is still invoked and its diagnostic still collected; the
hard failure only forces the final error, when the Wave64 attempt also
fails with a caught error, to be the invalid-content kind carrying both
messages. -/
theorem c5_amended_hard_failure_continues (fuel : Nat) (file : List Nat)
    (m : String) (h : parseRiffWav fuel file = .error (.openError m)) :
    (createPCMAudioProviderTrace fuel file).2 =
      [ParserName.riffWav, ParserName.wave64] ∧
    (∀ m2, (parseWave64 fuel file = .error (.dataNotFound m2) ∨
        parseWave64 fuel file = .error (.openError m2)) →
      createPCMAudioProvider fuel file =
        .error (.openError ((riffMsgTag ++ m) ++ (w64MsgTag ++ m2)))) := by
  constructor
  · simp [createPCMAudioProviderTrace, h]
  · intro m2 h2
    rcases h2 with h2 | h2 <;>
      simp [createPCMAudioProvider, createSecond, h, h2, String.append_assoc]

/-- C5 amended witness: after the hard RIFF failure on `c5File` the
Wave64 parser is tried (and soft-fails on size), and the factory raises
the invalid-content error carrying both diagnostics. -/
theorem c5_amended_hard_failure_continues_witness :
    (createPCMAudioProviderTrace 11 c5File).2 =
      [ParserName.riffWav, ParserName.wave64] ∧
    createPCMAudioProvider 11 c5File =
      .error (.openError ((riffMsgTag ++ "Can\'t use file, not PCM encoding") ++
        (w64MsgTag ++ "File is too small to be a Wave64 file"))) := by
  obtain ⟨h1, h2⟩ := c5_amended_hard_failure_continues 11 c5File
    "Can\'t use file, not PCM encoding" rfl
  exact ⟨h1, h2 "File is too small to be a Wave64 file" (Or.inl rfl)⟩


/-- Appending a point that starts exactly at the running total keeps the
index gapless. -/
theorem gapless_append (ip : IndexPoint) :
    ∀ (l : List IndexPoint) (n : Nat), gapless l n = true →
      ip.start_sample = n + sumNum l → gapless (l ++ [ip]) n = true := by
  intro l
  induction l with
  | nil =>
    intro n _ hip
    simp [gapless, sumNum] at hip ⊢
    omega
  | cons a t ih =>
    intro n h hip
    simp only [gapless, Bool.and_eq_true, beq_iff_eq] at h
    simp only [List.cons_append, gapless, Bool.and_eq_true, beq_iff_eq]
    refine ⟨h.1, ih (n + a.num_samples) h.2 ?_⟩
    simp only [sumNum] at hip
    omega

/-- `sumNum` over an appended singleton. -/
theorem sumNum_append (l : List IndexPoint) (ip : IndexPoint) :
    sumNum (l ++ [ip]) = sumNum l + ip.num_samples := by
  induction l with
  | nil => simp [sumNum]
  | cons a t ih =>
    simp [sumNum, ih]
    omega

/-- The chunk-walk invariant: the index points collected so far are
gapless from sample 0 and their frame counts sum to `num_samples`. -/
def stateInv (s : ParseState) : Prop :=
  gapless s.index_points 0 = true ∧ sumNum s.index_points = s.num_samples

/-- Any successful RIFF iteration either leaves the index and total
untouched or appends one point starting at the current total. -/
theorem riffStep_shape (file : List Nat) (s t : ParseState)
    (h : riffStep file s = .ok t) :
    (t.index_points = s.index_points ∧ t.num_samples = s.num_samples) ∨
    ∃ frames fp, t.index_points = s.index_points ++
        [{ start_sample := s.num_samples, num_samples := frames, start_byte := fp }] ∧
      t.num_samples = s.num_samples + frames := by
  unfold riffStep at h
  split at h
  · cases h
  · by_cases h1 : checkFourcc file s.filepos fccFmt = true
    · rw [if_pos h1] at h
      by_cases h2 : (riffPastHeader s).got_fmt_header = true
      · rw [if_pos h2] at h
        cases h
      · rw [if_neg h2] at h
        split at h
        · cases h
        · by_cases h3 : readU16 file (riffPastHeader s).filepos ≠ 1
          · rw [if_pos h3] at h
            cases h
          · rw [if_neg h3] at h
            cases h
            exact Or.inl ⟨rfl, rfl⟩
    · rw [if_neg h1] at h
      by_cases h4 : checkFourcc file s.filepos fccData = true
      · rw [if_pos h4] at h
        by_cases h5 : (riffPastHeader s).got_fmt_header = true
        · rw [if_pos h5] at h
          split at h
          · cases h
          · split at h
            · cases h
            · cases h
              exact Or.inr ⟨_, _, rfl, rfl⟩
        · rw [if_neg h5] at h
          cases h
      · rw [if_neg h4] at h
        cases h
        exact Or.inl ⟨rfl, rfl⟩

/-- Any successful Wave64 iteration either leaves the index and total
untouched or appends one point starting at the current total. -/
theorem w64Step_shape (file : List Nat) (s t : ParseState)
    (h : w64Step file s = .ok t) :
    (t.index_points = s.index_points ∧ t.num_samples = s.num_samples) ∨
    ∃ frames fp, t.index_points = s.index_points ++
        [{ start_sample := s.num_samples, num_samples := frames, start_byte := fp }] ∧
      t.num_samples = s.num_samples + frames := by
  unfold w64Step at h
  split at h
  · cases h
  · split at h
    · cases h
    · by_cases h1 : checkGuid file s.filepos w64Guidfmt = true
      · rw [if_pos h1] at h
        by_cases h2 : s.got_fmt_header = true
        · rw [if_pos h2] at h
          cases h
        · rw [if_neg h2] at h
          split at h
          · cases h
          · by_cases h3 : readU16 file (s.filepos + 24) = 3
            · rw [if_pos h3] at h
              cases h
            · rw [if_neg h3] at h
              by_cases h4 : readU16 file (s.filepos + 24) ≠ 1
              · rw [if_pos h4] at h
                cases h
              · rw [if_neg h4] at h
                cases h
                exact Or.inl ⟨rfl, rfl⟩
      · rw [if_neg h1] at h
        by_cases h5 : checkGuid file s.filepos w64Guiddata = true
        · rw [if_pos h5] at h
          by_cases h6 : s.got_fmt_header = true
          · rw [if_pos h6] at h
            split at h
            · cases h
            · split at h
              · cases h
              · cases h
                exact Or.inr ⟨_, _, rfl, rfl⟩
          · rw [if_neg h6] at h
            cases h
        · rw [if_neg h5] at h
          cases h
          exact Or.inl ⟨rfl, rfl⟩

/-- A step of either shape preserves the chunk-walk invariant. -/
theorem stateInv_of_shape (s t : ParseState)
    (h : (t.index_points = s.index_points ∧ t.num_samples = s.num_samples) ∨
      ∃ frames fp, t.index_points = s.index_points ++
          [{ start_sample := s.num_samples, num_samples := frames, start_byte := fp }] ∧
        t.num_samples = s.num_samples + frames)
    (hs : stateInv s) : stateInv t := by
  obtain ⟨h1, h2⟩ | ⟨frames, fp, h1, h2⟩ := h
  · exact ⟨by rw [h1]; exact hs.1, by rw [h1, h2]; exact hs.2⟩
  · constructor
    · rw [h1]
      refine gapless_append _ _ 0 hs.1 ?_
      have hn := hs.2
      show s.num_samples = 0 + sumNum s.index_points
      omega
    · rw [h1, sumNum_append, h2]
      have hn := hs.2
      show sumNum s.index_points + frames = s.num_samples + frames
      omega

/-- The RIFF chunk walk preserves the invariant through any fuel. -/
theorem riffLoop_inv (file : List Nat) :
    ∀ (fuel : Nat) (s t : ParseState), riffLoop file fuel s = .ok t →
      stateInv s → stateInv t := by
  intro fuel
  induction fuel with
  | zero =>
    intro s t h hs
    unfold riffLoop at h
    split at h
    · cases h
      exact hs
    · cases h
  | succ n ih =>
    intro s t h hs
    unfold riffLoop at h
    split at h
    · cases h
      exact hs
    · split at h
      · cases h
      · rename_i u hu
        exact ih u t h (stateInv_of_shape s u (riffStep_shape file s u hu) hs)

/-- The Wave64 chunk walk preserves the invariant through any fuel. -/
theorem w64Loop_inv (file : List Nat) :
    ∀ (fuel : Nat) (s t : ParseState), w64Loop file fuel s = .ok t →
      stateInv s → stateInv t := by
  intro fuel
  induction fuel with
  | zero =>
    intro s t h hs
    unfold w64Loop at h
    split at h
    · cases h
      exact hs
    · cases h
  | succ n ih =>
    intro s t h hs
    unfold w64Loop at h
    split at h
    · cases h
      exact hs
    · split at h
      · cases h
      · rename_i u hu
        exact ih u t h (stateInv_of_shape s u (w64Step_shape file s u hu) hs)

/-- A successful RIFF header check starts the walk with an empty index. -/
theorem riffHeaderCheck_init (file : List Nat) (s : ParseState)
    (h : riffHeaderCheck file = .ok s) :
    s.index_points = [] ∧ s.num_samples = 0 := by
  unfold riffHeaderCheck at h
  split at h
  · cases h
  · split at h
    · cases h
    · split at h
      · cases h
      · cases h
        exact ⟨rfl, rfl⟩

/-- A successful Wave64 header check starts the walk with an empty index. -/
theorem w64HeaderCheck_init (file : List Nat) (s : ParseState)
    (h : w64HeaderCheck file = .ok s) :
    s.index_points = [] ∧ s.num_samples = 0 := by
  unfold w64HeaderCheck at h
  split at h
  · cases h
  · split at h
    · cases h
    · split at h
      · cases h
      · split at h
        · cases h
        · cases h
          exact ⟨rfl, rfl⟩

/-- C2: the index of every provider either parser accepts is contiguous
and gapless — each point's `start_sample` equals the sum of the frame
counts of all preceding points (so the points are in increasing
`start_sample` order with no gaps or overlaps), and the provider's
`num_samples` is the sum of all index point frame counts. -/
theorem c2_index_gapless (fuel : Nat) (file : List Nat) (p : Provider)
    (h : parseRiffWav fuel file = .ok p ∨ parseWave64 fuel file = .ok p) :
    gapless p.index_points 0 = true ∧ sumNum p.index_points = p.num_samples := by
  rcases h with h | h
  · unfold parseRiffWav at h
    split at h
    · cases h
    · rename_i s0 hs0
      split at h
      · cases h
      · rename_i s hsl
        cases h
        obtain ⟨hi, hn⟩ := riffHeaderCheck_init file s0 hs0
        have h0 : stateInv s0 := ⟨by rw [hi]; rfl, by rw [hi, hn]; rfl⟩
        exact riffLoop_inv file fuel s0 s hsl h0
  · unfold parseWave64 at h
    split at h
    · cases h
    · rename_i s0 hs0
      split at h
      · cases h
      · rename_i s hsl
        cases h
        obtain ⟨hi, hn⟩ := w64HeaderCheck_init file s0 hs0
        have h0 : stateInv s0 := ⟨by rw [hi]; rfl, by rw [hi, hn]; rfl⟩
        exact w64Loop_inv file fuel s0 s hsl h0

/-- C2 witness: the gapless invariant evaluated on the provider built
from `c1File`. -/
theorem c2_index_gapless_witness :
    gapless c1Provider.index_points 0 = true ∧
    sumNum c1Provider.index_points = c1Provider.num_samples :=
  c2_index_gapless 100 c1File c1Provider (Or.inl rfl)


/-- A request for zero frames copies nothing, whatever the index holds. -/
theorem fillBufferAux_count_zero (file : List Nat) (bps ch : Nat)
    (l : List IndexPoint) (start : Nat) :
    fillBufferAux file bps ch l start 0 = .ok [] := by
  cases l with
  | nil => rfl
  | cons ip rest => simp [fillBufferAux]

/-- The reader loop on a gapless index whose byte ranges lie inside the
file: it always succeeds and copies exactly
`min count (available frames past start)` frames' bytes. -/
theorem fillBufferAux_length (file : List Nat) (bps ch : Nat) :
    ∀ (l : List IndexPoint) (n start count : Nat),
      gapless l n = true →
      (∀ ip ∈ l, ip.start_byte + ip.num_samples * bps * ch ≤ file.length) →
      n ≤ start →
      ∃ out, fillBufferAux file bps ch l start count = .ok out ∧
        out.length = min count (n + sumNum l - start) * (bps * ch) := by
  intro l
  induction l with
  | nil =>
    intro n start count hg hb hns
    refine ⟨[], rfl, ?_⟩
    have h0 : n + sumNum ([] : List IndexPoint) - start = 0 := by
      simp only [sumNum]
      omega
    rw [h0, Nat.min_zero]
    simp
  | cons ip rest ih =>
    intro n start count hg hb hns
    simp only [gapless, Bool.and_eq_true, beq_iff_eq] at hg
    obtain ⟨hip, hrest⟩ := hg
    by_cases hc0 : count = 0
    · subst hc0
      refine ⟨[], fillBufferAux_count_zero file bps ch _ start, ?_⟩
      simp
    · by_cases hov : ip.start_sample ≤ start ∧ start < ip.start_sample + ip.num_samples
      · -- the head index point contains `start`
        have hb1 : ip.start_byte + ip.num_samples * bps * ch ≤ file.length :=
          hb ip (List.mem_cons_self ip rest)
        have hb2 : ∀ q ∈ rest, q.start_byte + q.num_samples * bps * ch ≤ file.length :=
          fun q hq => hb q (List.mem_cons_of_mem ip hq)
        have hfr : (start - ip.start_sample) +
            min (ip.start_sample + ip.num_samples - start) count ≤ ip.num_samples := by
          omega
        have hmul : ((start - ip.start_sample) +
              min (ip.start_sample + ip.num_samples - start) count) * (bps * ch) ≤
            ip.num_samples * (bps * ch) :=
          Nat.mul_le_mul_right (bps * ch) hfr
        have hsrc : ip.start_byte + (start - ip.start_sample) * bps * ch +
            min (ip.start_sample + ip.num_samples - start) count * bps * ch ≤
            file.length := by
          have e1 : (start - ip.start_sample) * bps * ch +
              min (ip.start_sample + ip.num_samples - start) count * bps * ch =
              ((start - ip.start_sample) +
                min (ip.start_sample + ip.num_samples - start) count) * (bps * ch) := by
            ring
          have e2 : ip.num_samples * bps * ch = ip.num_samples * (bps * ch) := by
            ring
          calc ip.start_byte + (start - ip.start_sample) * bps * ch +
                min (ip.start_sample + ip.num_samples - start) count * bps * ch
              = ip.start_byte + ((start - ip.start_sample) +
                  min (ip.start_sample + ip.num_samples - start) count) * (bps * ch) := by
                rw [Nat.add_assoc, e1]
            _ ≤ ip.start_byte + ip.num_samples * (bps * ch) :=
                Nat.add_le_add_left hmul ip.start_byte
            _ = ip.start_byte + ip.num_samples * bps * ch := by rw [e2]
            _ ≤ file.length := hb1
        have hens : ensureRange file.length
            (ip.start_byte + (start - ip.start_sample) * bps * ch)
            (min (ip.start_sample + ip.num_samples - start) count * bps * ch) = .ok () := by
          unfold ensureRange
          rw [if_neg (by omega)]
        have hbytes : (bytesAt file
            (ip.start_byte + (start - ip.start_sample) * bps * ch)
            (min (ip.start_sample + ip.num_samples - start) count * bps * ch)).length =
            min (ip.start_sample + ip.num_samples - start) count * bps * ch := by
          simp only [bytesAt, List.length_take, List.length_drop]
          omega
        by_cases hrem : count - min (ip.start_sample + ip.num_samples - start) count = 0
        · -- the whole request is served by the head point
          refine ⟨bytesAt file
              (ip.start_byte + (start - ip.start_sample) * bps * ch)
              (min (ip.start_sample + ip.num_samples - start) count * bps * ch), ?_, ?_⟩
          · simp only [fillBufferAux, if_neg hc0, if_pos hov, hens, hrem,
              fillBufferAux_count_zero, List.append_nil]
          · rw [hbytes]
            have e1 : min (ip.start_sample + ip.num_samples - start) count * bps * ch =
                min (ip.start_sample + ip.num_samples - start) count * (bps * ch) := by
              ring
            rw [e1]
            have e2 : min (ip.start_sample + ip.num_samples - start) count =
                min count (n + sumNum (ip :: rest) - start) := by
              simp only [sumNum]
              omega
            rw [e2]
        · -- the tail of the request continues into later points
          have hstart2 : n + ip.num_samples ≤
              start + min (ip.start_sample + ip.num_samples - start) count := by
            omega
          obtain ⟨tail, htl, hlen⟩ := ih (n + ip.num_samples)
            (start + min (ip.start_sample + ip.num_samples - start) count)
            (count - min (ip.start_sample + ip.num_samples - start) count)
            hrest hb2 hstart2
          refine ⟨bytesAt file
              (ip.start_byte + (start - ip.start_sample) * bps * ch)
              (min (ip.start_sample + ip.num_samples - start) count * bps * ch) ++ tail,
            ?_, ?_⟩
          · simp only [fillBufferAux, if_neg hc0, if_pos hov, hens, htl]
          · rw [List.length_append, hbytes, hlen]
            have e1 : min (ip.start_sample + ip.num_samples - start) count * bps * ch =
                min (ip.start_sample + ip.num_samples - start) count * (bps * ch) := by
              ring
            rw [e1, ← Nat.add_mul]
            have e2 : min (ip.start_sample + ip.num_samples - start) count +
                min (count - min (ip.start_sample + ip.num_samples - start) count)
                  (n + ip.num_samples + sumNum rest -
                    (start + min (ip.start_sample + ip.num_samples - start) count)) =
                min count (n + sumNum (ip :: rest) - start) := by
              simp only [sumNum]
              omega
            rw [e2]
      · -- the head index point is skipped
        have hpast : ip.start_sample + ip.num_samples ≤ start := by
          omega
        obtain ⟨out, hout, hlen⟩ := ih (n + ip.num_samples) start count hrest
          (fun q hq => hb q (List.mem_cons_of_mem ip hq)) (by omega)
        refine ⟨out, ?_, ?_⟩
        · simp only [fillBufferAux, if_neg hc0, if_neg hov, hout]
        · rw [hlen]
          have e2 : n + ip.num_samples + sumNum rest - start =
              n + sumNum (ip :: rest) - start := by
            simp only [sumNum]
            omega
          rw [e2]

/-- C9: `FillBuffer` terminates — it is structural recursion on the index
list, stopping when `count` reaches zero or the index is exhausted — and
on a provider whose gapless index lies inside the file a request reaching
past `num_samples` succeeds (no error for that reason), copying only the
frames that exist: the output holds exactly
`min count (num_samples - start)` frames' bytes, with no zero padding of
the remainder. -/
theorem c9_fillbuffer_no_padding (file : List Nat) (p : Provider)
    (start count : Nat)
    (hg : gapless p.index_points 0 = true)
    (hn : sumNum p.index_points = p.num_samples)
    (hb : ∀ ip ∈ p.index_points,
      ip.start_byte + ip.num_samples * p.bytes_per_sample * p.channels ≤ file.length) :
    ∃ out, fillBuffer file p start count = .ok out ∧
      out.length = min count (p.num_samples - start) *
        (p.bytes_per_sample * p.channels) := by
  obtain ⟨out, h1, h2⟩ := fillBufferAux_length file p.bytes_per_sample p.channels
    p.index_points 0 start count hg hb (Nat.zero_le start)
  refine ⟨out, h1, ?_⟩
  rw [h2, Nat.zero_add, hn]

/-- C9 witness: on the 4-frame provider of `c1File`, requesting frames
`[2, 7)` succeeds and copies exactly `min 5 (4 - 2) = 2` frames (8 bytes),
not the 20 bytes requested. -/
theorem c9_fillbuffer_no_padding_witness :
    ∃ out, fillBuffer c1File c1Provider 2 5 = .ok out ∧
      out.length = min 5 (c1Provider.num_samples - 2) *
        (c1Provider.bytes_per_sample * c1Provider.channels) :=
  c9_fillbuffer_no_padding c1File c1Provider 2 5 (by decide) (by decide) (by decide)

end PCM
